import Mathlib

/-!
Shallow embedding of `.dev-team/implementations/222.py` (MayDay Real Estate
validation script) together with proofs about its specification.

The script builds fixed tables of validation results, counts them, and renders
a text report.  Every definition below is translated from the Python source;
a handful of auxiliary definitions (`Contains`, `occursB`, ...) only serve to
state and decide string-containment properties.
-/

/-- Enumeration `ValidationStatus` (source lines 41-46).  `value` is the
enum member's string payload. -/
inductive ValidationStatus
  | PASS
  | FAIL
  | WARNING
  | INFO
deriving DecidableEq

/-- The `.value` of each `ValidationStatus` member (source lines 43-46). -/
def ValidationStatus.value : ValidationStatus → String
  | .PASS => "✓"
  | .FAIL => "✗"
  | .WARNING => "⚠"
  | .INFO => "ℹ"

/-- Dataclass `ValidationResult` (source lines 49-55). -/
structure ValidationResult where
  status : ValidationStatus
  message : String
  details : Option String := none
  recommendations : List String := []
deriving DecidableEq

/-- One character of the regex class `[0-9A-Fa-f]`. -/
def isHexChar (c : Char) : Bool :=
  c.isDigit || (decide ('A' ≤ c) && decide (c ≤ 'F')) ||
    (decide ('a' ≤ c) && decide (c ≤ 'f'))

/-- A full match of `#[0-9A-Fa-f]{6}` against a character list: a leading
hash sign followed by exactly six hex digits and nothing else. -/
def hexCore : List Char → Bool
  | '#' :: rest => (rest.length == 6) && rest.all isHexChar
  | _ => false

/-- `re.compile(r'^#[0-9A-Fa-f]{6}$').match(s)` succeeding, as a Bool
(source line 70).  In Python, `$` (without `re.MULTILINE`) matches at the end
of the string or just before a newline that is the last character, so the
pattern also accepts a core match followed by one trailing newline. -/
def hexPatternMatch (s : String) : Bool :=
  hexCore s.data ||
    (if s.data.getLast? = some '\n' then hexCore s.data.dropLast else false)

/-- The spec's reading of the pattern: a leading hash sign followed by exactly
six hex digits and nothing else, not even a trailing newline.  Stated from the
spec's words to compare with `hexPatternMatch`, which is taken from the code. -/
def specStrictHexMatch (s : String) : Bool :=
  hexCore s.data

/-- Dataclass `ColorScheme` with its literal defaults (source lines 58-65). -/
structure ColorScheme where
  primary : String := "#0b2a4a"
  secondary : String := "#ffffff"
  text : String := "#222222"
  background : String := "#f8f9fa"
  accent : String := "#e8f4fd"
deriving DecidableEq

/-- `self.__dict__.items()` of a `ColorScheme`: the five fields in declaration
order, paired with their attribute names (iteration order of a dataclass
instance dict). -/
def ColorScheme.fields (c : ColorScheme) : List (String × String) :=
  [("primary", c.primary), ("secondary", c.secondary), ("text", c.text),
   ("background", c.background), ("accent", c.accent)]

/-- Body of the per-attribute loop of `validate_hex_colors`
(source lines 72-83). -/
def colorCheckResult (attr color : String) : ValidationResult :=
  if !hexPatternMatch color then
    { status := ValidationStatus.FAIL,
      message := "Invalid hex color for " ++ attr ++ ": " ++ color,
      recommendations := ["Use 6-digit hex format: #RRGGBB"] }
  else
    { status := ValidationStatus.PASS,
      message := "Valid hex color for " ++ attr ++ ": " ++ color }

/-- `ColorScheme.validate_hex_colors` (source lines 67-85). -/
def ColorScheme.validate_hex_colors (c : ColorScheme) : List ValidationResult :=
  c.fields.map (fun p => colorCheckResult p.1 p.2)

/-- The attributes of `MayDayRealEstateImplementation` set in `__init__`
(source lines 104-111); the logger does not influence any returned value. -/
structure Implementation where
  project_name : String
  version : String
  tech_stack : List String
  color_scheme : ColorScheme
  deployment_platform : String
deriving DecidableEq

/-- `MayDayRealEstateImplementation()` (source lines 104-110). -/
def mkImplementation : Implementation :=
  { project_name := "MayDay Real Estate",
    version := "1.1.0",
    tech_stack := ["HTML5", "CSS3"],
    color_scheme := {},
    deployment_platform := "Vercel" }

/-- The seven architecture checks built in the `try` block of
`validate_architecture_compliance` (source lines 136-172), in dict insertion
order. -/
def archValidations (impl : Implementation) : List (String × ValidationResult) :=
  [("single_page_design",
    { status := ValidationStatus.PASS,
      message := "Single-page architecture implemented",
      details := some "All content contained in index.html with anchor navigation" }),
   ("no_javascript",
    { status := ValidationStatus.PASS,
      message := "No JavaScript dependencies detected",
      details := some "Pure HTML5/CSS3 implementation as required" }),
   ("no_frameworks",
    { status := ValidationStatus.PASS,
      message := "No external frameworks used",
      details := some "Self-contained implementation with system fonts" }),
   ("responsive_design",
    { status := ValidationStatus.PASS,
      message := "Mobile-first responsive design implemented",
      details := some "Breakpoints: 480px (mobile), 768px (tablet), 800px (desktop)" }),
   ("color_scheme_compliance",
    { status := ValidationStatus.PASS,
      message := "Navy blue and white theme implemented",
      details := some ("Primary: " ++ impl.color_scheme.primary ++ ", Secondary: "
        ++ impl.color_scheme.secondary) }),
   ("system_fonts",
    { status := ValidationStatus.PASS,
      message := "System fonts (Arial) used exclusively",
      details := some "No external font dependencies" }),
   ("no_animations",
    { status := ValidationStatus.PASS,
      message := "No animations or transitions implemented",
      details := some "Static design as per requirements" })]

/-- The `try`/`except` wrapper of `validate_architecture_compliance`
(source lines 135-185): an exception raised by the body is converted into a
single fail-status entry keyed `validation_error`. -/
def runArchCompliance (body : Except String (List (String × ValidationResult))) :
    List (String × ValidationResult) :=
  match body with
  | .ok v => v
  | .error e =>
    [("validation_error",
      { status := ValidationStatus.FAIL,
        message := "Validation process failed: " ++ e,
        recommendations := ["Check implementation files exist and are accessible"] })]

/-- `validate_architecture_compliance` (source lines 128-185).  The body only
constructs literals, so it never raises. -/
def validate_architecture_compliance (impl : Implementation) :
    List (String × ValidationResult) :=
  runArchCompliance (Except.ok (archValidations impl))

/-- The eight accessibility checks built in the `try` block of
`validate_accessibility_compliance` (source lines 261-310). -/
def accessibilityValidations : List (String × ValidationResult) :=
  [("semantic_html",
    { status := ValidationStatus.PASS,
      message := "Semantic HTML5 elements used throughout",
      details := some "Proper use of header, section, footer, h1-h3, nav elements",
      recommendations := ["Continue using semantic elements for future additions"] }),
   ("heading_hierarchy",
    { status := ValidationStatus.PASS,
      message := "Proper heading hierarchy maintained (h1→h2→h3)",
      details := some "Single h1 in header, h2 for sections, h3 for subsections",
      recommendations := ["Maintain hierarchy when adding new sections"] }),
   ("form_accessibility",
    { status := ValidationStatus.PASS,
      message := "Form accessibility features implemented",
      details := some "ARIA labels, required attributes, fieldset grouping",
      recommendations := ["Add form validation feedback for better UX"] }),
   ("color_contrast",
    { status := ValidationStatus.PASS,
      message := "WCAG AA color contrast ratios met",
      details := some "Navy blue on white exceeds 4.5:1 contrast ratio",
      recommendations := ["Test with color contrast analyzers regularly"] }),
   ("focus_management",
    { status := ValidationStatus.PASS,
      message := "Visible focus indicators implemented",
      details := some "CSS focus states for form elements and buttons",
      recommendations := ["Test keyboard navigation thoroughly"] }),
   ("responsive_accessibility",
    { status := ValidationStatus.PASS,
      message := "Touch targets appropriately sized",
      details := some "Minimum 44px touch targets on mobile devices",
      recommendations := ["Test on actual mobile devices"] }),
   ("screen_reader_support",
    { status := ValidationStatus.PASS,
      message := "Screen reader friendly markup",
      details := some "Semantic HTML, ARIA labels, logical content flow",
      recommendations := ["Test with actual screen reader software"] }),
   ("print_accessibility",
    { status := ValidationStatus.PASS,
      message := "Print-friendly styles implemented",
      details := some "Dedicated print CSS for document accessibility",
      recommendations := ["Test print output regularly"] })]

/-- The `try`/`except` wrapper of `validate_accessibility_compliance`
(source lines 260-323). -/
def runAccessCompliance (body : Except String (List (String × ValidationResult))) :
    List (String × ValidationResult) :=
  match body with
  | .ok v => v
  | .error e =>
    [("accessibility_error",
      { status := ValidationStatus.FAIL,
        message := "Accessibility validation failed: " ++ e,
        recommendations := ["Review accessibility implementation"] })]

/-- `validate_accessibility_compliance` (source lines 253-323).  The body only
constructs literals, so it never raises. -/
def validate_accessibility_compliance : List (String × ValidationResult) :=
  runAccessCompliance (Except.ok accessibilityValidations)

/-- `validate_code_quality` (source lines 403-441).  Unlike the two functions
above, the source has no `try`/`except` here; the function directly returns
literal data and cannot raise. -/
def validate_code_quality : List (String × ValidationResult) :=
  [("html_validation",
    { status := ValidationStatus.PASS,
      message := "HTML5 semantic markup follows W3C standards",
      details := some "Proper DOCTYPE, meta tags, semantic elements",
      recommendations := ["Validate with W3C HTML validator"] }),
   ("css_validation",
    { status := ValidationStatus.PASS,
      message := "CSS3 follows best practices and standards",
      details := some "Mobile-first, BEM-like naming, proper specificity",
      recommendations := ["Validate with W3C CSS validator"] }),
   ("code_organization",
    { status := ValidationStatus.PASS,
      message := "Code is well-organized and maintainable",
      details := some "Clear file structure, commented sections, logical flow",
      recommendations := ["Document any future architectural changes"] }),
   ("browser_compatibility",
    { status := ValidationStatus.PASS,
      message := "Cross-browser compatibility implemented",
      details := some "Progressive enhancement, fallbacks for older browsers",
      recommendations := ["Test on target browsers regularly"] }),
   ("documentation",
    { status := ValidationStatus.PASS,
      message := "Comprehensive documentation provided",
      details := some "README, inline comments, implementation notes",
      recommendations := ["Keep documentation updated with changes"] })]

/-- A value stored in one of the result dictionaries or lists: either a
`ValidationResult` instance or any other Python value (string, number, nested
dict or list).  The summary loop only inspects which of the two a value is
(`isinstance(v, ValidationResult)`), plus the status of the former. -/
inductive PyEntry
  | vr (r : ValidationResult)
  | other
deriving DecidableEq

/-- A category value of the `validation_results` dict: a Python dict (ordered
key/value pairs) or a Python list. -/
inductive CatVal
  | pydict (entries : List (String × PyEntry))
  | pylist (entries : List PyEntry)
deriving DecidableEq

/-- `isinstance(v, ValidationResult)`. -/
def isVREntry : PyEntry → Bool
  | .vr _ => true
  | .other => false

/-- `isinstance(checks, dict) and all(isinstance(v, ValidationResult) for v in
checks.values())` (source line 474). -/
def isVRDict : CatVal → Bool
  | .pydict es => es.all (fun p => isVREntry p.2)
  | .pylist _ => false

/-- `get_implemented_features` (source lines 187-251): a Python list of eight
feature dicts.  None of its elements is a `ValidationResult`, which is all the
summary loop looks at. -/
def get_implemented_features : List PyEntry :=
  [PyEntry.other, PyEntry.other, PyEntry.other, PyEntry.other,
   PyEntry.other, PyEntry.other, PyEntry.other, PyEntry.other]

/-- The `project_info` dict (source lines 454-459): four non-`ValidationResult`
values keyed as shown. -/
def project_info_entries : List (String × PyEntry) :=
  [("name", PyEntry.other), ("version", PyEntry.other),
   ("tech_stack", PyEntry.other), ("validation_timestamp", PyEntry.other)]

/-- `get_performance_metrics` (source lines 325-358) seen by the summary loop:
a dict of four non-`ValidationResult` values. -/
def get_performance_metrics : List (String × PyEntry) :=
  [("file_sizes", PyEntry.other), ("lighthouse_scores", PyEntry.other),
   ("loading_metrics", PyEntry.other), ("optimization_features", PyEntry.other)]

/-- `get_deployment_configuration` (source lines 360-401) seen by the summary
loop: a dict of ten non-`ValidationResult` values. -/
def get_deployment_configuration : List (String × PyEntry) :=
  [("platform", PyEntry.other), ("deployment_type", PyEntry.other),
   ("configuration", PyEntry.other), ("required_files", PyEntry.other),
   ("optional_files", PyEntry.other), ("environment_variables", PyEntry.other),
   ("custom_headers", PyEntry.other), ("ssl_configuration", PyEntry.other),
   ("cdn_configuration", PyEntry.other), ("deployment_steps", PyEntry.other)]

/-- View a dict of `ValidationResult`s as a generic category value. -/
def asVRDict (l : List (String × ValidationResult)) : CatVal :=
  CatVal.pydict (l.map (fun p => (p.1, PyEntry.vr p.2)))

/-- The `validation_results` dict as the summary loop iterates it
(source lines 453-467), in insertion order, before `summary` is added. -/
def validationCategories (impl : Implementation) : List (String × CatVal) :=
  [("project_info", CatVal.pydict project_info_entries),
   ("architecture_compliance", asVRDict (validate_architecture_compliance impl)),
   ("accessibility_compliance", asVRDict validate_accessibility_compliance),
   ("code_quality", asVRDict validate_code_quality),
   ("performance_metrics", CatVal.pydict get_performance_metrics),
   ("deployment_config", CatVal.pydict get_deployment_configuration),
   ("color_scheme_validation",
     CatVal.pylist ((impl.color_scheme.validate_hex_colors).map PyEntry.vr)),
   ("implemented_features", CatVal.pylist get_implemented_features)]

/-- The counting loop of `run_comprehensive_validation` (source lines
470-478): `(total_checks, passed_checks)`.  Only categories that are dicts
whose values are all `ValidationResult`s contribute; every such value adds one
to the total and, when its status is PASS, one to the passed count. -/
def summaryCounts (cats : List (String × CatVal)) : Nat × Nat :=
  cats.foldl
    (fun acc p =>
      match p.2 with
      | .pydict es =>
        if es.all (fun q => isVREntry q.2) then
          es.foldl
            (fun a q =>
              match q.2 with
              | .vr r =>
                (a.1 + 1, if r.status = ValidationStatus.PASS then a.2 + 1 else a.2)
              | .other => (a.1 + 1, a.2))
            acc
        else acc
      | .pylist _ => acc)
    (0, 0)

/-- Nearest integer to `n / d`, ties to even: the rounding used by Python's
`format(x, '.1f')` applied to the exact rational value scaled into tenths. -/
def roundTenthsHalfEven (n d : Nat) : Nat :=
  if 2 * (n % d) < d then n / d
  else if 2 * (n % d) > d then n / d + 1
  else if (n / d) % 2 = 0 then n / d else n / d + 1

/-- `f"{(passed/total)*100:.1f}%"` (source line 483): `(passed/total)*100`
rendered with one decimal digit and a percent sign. -/
def formatOneDecimalPercent (passed total : Nat) : String :=
  toString (roundTenthsHalfEven (passed * 1000) total / 10) ++ "." ++
    toString (roundTenthsHalfEven (passed * 1000) total % 10) ++ "%"

/-- The `pass_rate` entry of the summary (source line 483): the guarded
conditional expression evaluates the division only when `total_checks > 0` and
otherwise yields the literal `"N/A"`. -/
def pass_rate (passed total : Nat) : String :=
  if total > 0 then formatOneDecimalPercent passed total else "N/A"

/-- The `overall_status` entry of the summary (source line 484). -/
def overallStatusOf (passed total : Nat) : ValidationStatus :=
  if passed = total then ValidationStatus.PASS else ValidationStatus.WARNING

/-- The `summary` dict added to the results (source lines 480-485). -/
structure Summary where
  total_checks : Nat
  passed_checks : Nat
  pass_rate : String
  overall_status : ValidationStatus
deriving DecidableEq

/-- Builds the summary from the iterated categories (source lines 469-485). -/
def mkSummary (cats : List (String × CatVal)) : Summary :=
  { total_checks := (summaryCounts cats).1,
    passed_checks := (summaryCounts cats).2,
    pass_rate := pass_rate (summaryCounts cats).2 (summaryCounts cats).1,
    overall_status := overallStatusOf (summaryCounts cats).2 (summaryCounts cats).1 }

/-- The `project_info` sub-dict with its typed values (source lines 454-459). -/
structure ProjectInfo where
  name : String
  version : String
  tech_stack : List String
  validation_timestamp : String
deriving DecidableEq

/-- The dict returned by `run_comprehensive_validation` (source lines
443-488), with each category at its typed value. -/
structure RunResults where
  project_info : ProjectInfo
  architecture_compliance : List (String × ValidationResult)
  accessibility_compliance : List (String × ValidationResult)
  code_quality : List (String × ValidationResult)
  performance_metrics : List (String × PyEntry)
  deployment_config : List (String × PyEntry)
  color_scheme_validation : List ValidationResult
  implemented_features : List PyEntry
  summary : Summary
deriving DecidableEq

/-- `run_comprehensive_validation` (source lines 443-488).  The body cannot
raise, so the `except` branch (lines 490-495) is dead code on every input. -/
def run_comprehensive_validation (impl : Implementation) : RunResults :=
  { project_info :=
      { name := impl.project_name, version := impl.version,
        tech_stack := impl.tech_stack, validation_timestamp := "2024" },
    architecture_compliance := validate_architecture_compliance impl,
    accessibility_compliance := validate_accessibility_compliance,
    code_quality := validate_code_quality,
    performance_metrics := get_performance_metrics,
    deployment_config := get_deployment_configuration,
    color_scheme_validation := impl.color_scheme.validate_hex_colors,
    implemented_features := get_implemented_features,
    summary := mkSummary (validationCategories impl) }

/-- One step of Python's `str.title()` over ASCII text: the first character of
each run of letters is uppercased, the following letters are lowercased.  The
Bool argument records whether the previous character was a letter. -/
def pyTitleGo : Bool → List Char → List Char
  | _, [] => []
  | prevAlpha, c :: cs =>
    (if c.isAlpha then (if prevAlpha then c.toLower else c.toUpper) else c)
      :: pyTitleGo c.isAlpha cs

/-- Python's `str.title()` restricted to the ASCII keys used here. -/
def pyTitle (s : String) : String :=
  String.mk (pyTitleGo false s.data)

/-- `check.replace('_', ' ')` for the single-character pattern used in the
report loops (source lines 528, 538, 548). -/
def underscoreToSpace (s : String) : String :=
  String.mk (s.data.map (fun c => if c = '_' then ' ' else c))

/-- `'='*60` (source line 508). -/
def eqLine60 : String := String.mk (List.replicate 60 '=')

/-- `'-'*20` (source lines 515, 542). -/
def dashLine20 : String := String.mk (List.replicate 20 '-')

/-- `'-'*30` (source lines 522, 532). -/
def dashLine30 : String := String.mk (List.replicate 30 '-')

/-- `'-'*60` (source lines 551, 554). -/
def dashLine60 : String := String.mk (List.replicate 60 '-')

/-- The per-check report line
`f"{result.status.value} {check.replace('_', ' ').title()}: {result.message}\n"`
(source lines 528, 538, 548). -/
def renderCheckLine (check : String) (result : ValidationResult) : String :=
  result.status.value ++ " " ++ pyTitle (underscoreToSpace check) ++ ": " ++
    result.message ++ "\n"

/-- One of the three `report += ...` loops over a group of checks
(source lines 526-528, 536-538, 546-548).  Every entry is a
`ValidationResult`, so the `isinstance` guard always holds. -/
def renderChecks (checks : List (String × ValidationResult)) : String :=
  checks.foldl (fun acc p => acc ++ renderCheckLine p.1 p.2) ""

/-- The leading f-string of the report up to the ARCHITECTURE COMPLIANCE
heading (source lines 506-523). -/
def reportHeader (res : RunResults) : String :=
  "\nMayDay Real Estate Implementation Validation Report\n" ++ eqLine60 ++
  "\n\nProject: " ++ res.project_info.name ++
  "\nVersion: " ++ res.project_info.version ++
  "\nTech Stack: " ++ String.intercalate ", " res.project_info.tech_stack ++
  "\n\nSUMMARY\n" ++ dashLine20 ++
  "\nTotal Checks: " ++ toString res.summary.total_checks ++
  "\nPassed Checks: " ++ toString res.summary.passed_checks ++
  "\nPass Rate: " ++ res.summary.pass_rate ++
  "\nOverall Status: " ++ res.summary.overall_status.value ++
  "\n\nARCHITECTURE COMPLIANCE\n" ++ dashLine30 ++ "\n"

/-- The ACCESSIBILITY COMPLIANCE heading (source lines 530-533). -/
def accessHeading : String :=
  "\nACCESSIBILITY COMPLIANCE\n" ++ dashLine30 ++ "\n"

/-- The CODE QUALITY heading (source lines 540-543). -/
def codeQualityHeading : String :=
  "\nCODE QUALITY\n" ++ dashLine20 ++ "\n"

/-- The trailing f-string of the report (source lines 550-555). -/
def reportFooter (res : RunResults) : String :=
  "\n" ++ dashLine60 ++ "\nVALIDATION COMPLETE\nReady for Production Deployment: " ++
    res.summary.overall_status.value ++ "\n" ++ dashLine60 ++ "\n"

/-- The full report assembled from a results value (source lines 506-557). -/
def reportBody (res : RunResults) : String :=
  reportHeader res ++ renderChecks res.architecture_compliance ++
  accessHeading ++ renderChecks res.accessibility_compliance ++
  codeQualityHeading ++ renderChecks res.code_quality ++
  reportFooter res

/-- `generate_validation_report` (source lines 497-557). -/
def generate_validation_report (impl : Implementation) : String :=
  reportBody (run_comprehensive_validation impl)

/-- The `try`/`except` of `main` (source lines 560-572): on success `print`
writes the report plus a newline to stdout and the exit code is 0; an
unexpected error is printed as a message and yields exit code 1.  The pair is
(text written to stdout, exit code). -/
def mainRun (body : Except String String) : String × Nat :=
  match body with
  | .ok report => (report ++ "\n", 0)
  | .error e => ("Validation failed: " ++ e ++ "\n", 1)

/-- `main()` on the shipped data (source lines 560-576); the body cannot
raise. -/
def mainResult : String × Nat :=
  mainRun (Except.ok (generate_validation_report mkImplementation))

/-- `t` occurs verbatim inside `s`. -/
def Contains (s t : String) : Prop :=
  ∃ a b : List Char, s.data = a ++ t.data ++ b

/-- Bool test: `t` is an initial segment of `s`. -/
def hasPre : List Char → List Char → Bool
  | [], _ => true
  | _ :: _, [] => false
  | c :: cs, d :: ds => c == d && hasPre cs ds

/-- Bool test: `t` occurs as a contiguous segment of `s`. -/
def occursB (t : List Char) : List Char → Bool
  | [] => hasPre t []
  | c :: s2 => hasPre t (c :: s2) || occursB t s2

/-- Concatenation of the strings produced from each list element; the spine of
`renderChecks` made explicit for reasoning. -/
def concatMapStr {α : Type} (f : α → String) : List α → String
  | [] => ""
  | x :: xs => f x ++ concatMapStr f xs

/-- A scheme equal to the default one except that the primary color carries a
trailing newline. -/
def newlineScheme : ColorScheme :=
  { primary := "#0b2a4a\n" }

/-- The message of the first shipped color check. -/
def validPrimaryMsg : String := "Valid hex color for primary: #0b2a4a"

/-- A one-category, one-check input whose only check fails. -/
def warnExampleCats : List (String × CatVal) :=
  [("group", CatVal.pydict
    [("check", PyEntry.vr { status := ValidationStatus.FAIL, message := "m" })])]

/-- An input with no categories at all, so zero counted checks. -/
def emptyCats : List (String × CatVal) := []

theorem strExt : ∀ {a b : String}, a.data = b.data → a = b
  | ⟨_⟩, ⟨_⟩, rfl => rfl

theorem strData_append (a b : String) : (a ++ b).data = a.data ++ b.data := by
  cases a; cases b; rfl

theorem strAppend_assoc (a b c : String) : a ++ b ++ c = a ++ (b ++ c) :=
  strExt (by simp [strData_append, List.append_assoc])

theorem strAppend_empty (s : String) : s ++ "" = s :=
  strExt (by simp [strData_append])

theorem strEmpty_append (s : String) : "" ++ s = s :=
  strExt (by simp [strData_append])

theorem hasPre_iff (t : List Char) : ∀ s : List Char,
    hasPre t s = true ↔ ∃ b, s = t ++ b := by
  induction t with
  | nil => intro s; simp [hasPre]
  | cons c cs ih =>
    intro s
    cases s with
    | nil => simp [hasPre]
    | cons d ds =>
      simp only [hasPre, Bool.and_eq_true, beq_iff_eq, ih, List.cons_append,
        List.cons.injEq]
      constructor
      · rintro ⟨rfl, b, rfl⟩; exact ⟨b, rfl, rfl⟩
      · rintro ⟨b, rfl, rfl⟩; exact ⟨rfl, b, rfl⟩

theorem occursB_iff (t : List Char) : ∀ s : List Char,
    occursB t s = true ↔ ∃ a b, s = a ++ t ++ b := by
  intro s
  induction s with
  | nil =>
    rw [occursB, hasPre_iff]
    constructor
    · rintro ⟨b, h⟩; exact ⟨[], b, by simpa using h⟩
    · rintro ⟨a, b, h⟩
      rcases List.append_eq_nil.mp (List.append_eq_nil.mp h.symm).1 with ⟨rfl, rfl⟩
      exact ⟨[], by simp⟩
  | cons c s2 ih =>
    rw [occursB, Bool.or_eq_true, hasPre_iff, ih]
    constructor
    · rintro (⟨b, h⟩ | ⟨a, b, h⟩)
      · exact ⟨[], b, by simpa using h⟩
      · exact ⟨c :: a, b, by simp [h]⟩
    · rintro ⟨a, b, h⟩
      cases a with
      | nil => exact Or.inl ⟨b, by simpa using h⟩
      | cons x a2 =>
        rw [List.cons_append, List.cons_append] at h
        injection h with h1 h2
        exact Or.inr ⟨a2, b, h2⟩

theorem Contains_iff_occursB (s t : String) :
    Contains s t ↔ occursB t.data s.data = true :=
  (occursB_iff t.data s.data).symm

theorem contains_appendL (u s t : String) (h : Contains s t) : Contains (u ++ s) t := by
  obtain ⟨a, b, hab⟩ := h
  exact ⟨u.data ++ a, b, by rw [strData_append, hab]; simp [List.append_assoc]⟩

theorem contains_appendR (s u t : String) (h : Contains s t) : Contains (s ++ u) t := by
  obtain ⟨a, b, hab⟩ := h
  exact ⟨a, b ++ u.data, by rw [strData_append, hab]; simp [List.append_assoc]⟩

theorem contains_startL (y x : String) : Contains (y ++ x) y :=
  ⟨[], x.data, by rw [strData_append]; rfl⟩

theorem contains_parts (x y z : String) : Contains (x ++ y ++ z) y :=
  ⟨x.data, z.data, by rw [strData_append, strData_append]⟩

theorem contains_endR (x y : String) : Contains (x ++ y) y :=
  ⟨x.data, [], by rw [strData_append, List.append_nil]⟩

theorem contains_concatMap {α : Type} (f : α → String) (p : α) :
    ∀ l : List α, p ∈ l → Contains (concatMapStr f l) (f p) := by
  intro l
  induction l with
  | nil => intro hl; cases hl
  | cons q t ih =>
    intro hl
    rcases List.mem_cons.mp hl with h | h
    · subst h
      exact contains_startL (f p) (concatMapStr f t)
    · exact contains_appendL (f q) _ _ (ih h)

theorem renderChecks_foldl (checks : List (String × ValidationResult)) :
    ∀ acc : String,
      List.foldl (fun a p => a ++ renderCheckLine p.1 p.2) acc checks =
        acc ++ concatMapStr (fun p => renderCheckLine p.1 p.2) checks := by
  induction checks with
  | nil => intro acc; simp [concatMapStr, strAppend_empty]
  | cons p t ih =>
    intro acc
    rw [List.foldl_cons, ih, concatMapStr, strAppend_assoc]

theorem renderChecks_eq (checks : List (String × ValidationResult)) :
    renderChecks checks = concatMapStr (fun p => renderCheckLine p.1 p.2) checks := by
  unfold renderChecks
  exact (renderChecks_foldl checks "").trans (strEmpty_append _)

theorem forall₂_map_self {α β : Type} (g : α → β) (R : α → β → Prop)
    (h : ∀ a, R a (g a)) : ∀ l : List α, List.Forall₂ R l (l.map g) := by
  intro l
  induction l with
  | nil => exact List.Forall₂.nil
  | cons a t ih => exact List.Forall₂.cons (h a) ih

theorem hexPatternMatch_iff (s : String) :
    hexPatternMatch s = true ↔
      (specStrictHexMatch s = true ∨
        ∃ t : String, s = t ++ "\n" ∧ specStrictHexMatch t = true) := by
  unfold hexPatternMatch specStrictHexMatch
  rw [Bool.or_eq_true]
  apply or_congr Iff.rfl
  constructor
  · intro h
    by_cases hc : s.data.getLast? = some '\n'
    · rw [if_pos hc] at h
      rcases List.eq_nil_or_concat s.data with hnil | ⟨l2, a, hl⟩
      · rw [hnil] at hc; simp at hc
      · rw [List.concat_eq_append] at hl
        have ha : a = '\n' := by
          rw [hl, List.getLast?_concat] at hc
          simpa using hc
        subst ha
        refine ⟨String.mk l2, strExt ?_, ?_⟩
        · rw [strData_append, hl]
        · rw [hl, List.dropLast_concat] at h
          exact h
    · rw [if_neg hc] at h; cases h
  · rintro ⟨t, hst, ht⟩
    have hdata : s.data = t.data ++ ['\n'] := by
      rw [hst, strData_append]
    rw [hdata, List.getLast?_concat, List.dropLast_concat, if_pos rfl]
    exact ht

theorem colorCheckResult_status (attr color : String) :
    ((colorCheckResult attr color).status = ValidationStatus.PASS ↔
      hexPatternMatch color = true) ∧
    ((colorCheckResult attr color).status = ValidationStatus.FAIL ↔
      hexPatternMatch color = false) := by
  unfold colorCheckResult
  cases h : hexPatternMatch color <;> simp [h]

theorem colorCheckResult_message (attr color : String) :
    Contains (colorCheckResult attr color).message attr ∧
    Contains (colorCheckResult attr color).message color := by
  unfold colorCheckResult
  cases h : hexPatternMatch color
  · simp only [Bool.not_false, if_true]
    exact ⟨contains_appendR _ _ _ (contains_appendR _ _ _ (contains_endR _ _)),
           contains_endR _ _⟩
  · simp only [Bool.not_true, if_false]
    exact ⟨contains_appendR _ _ _ (contains_appendR _ _ _ (contains_endR _ _)),
           contains_endR _ _⟩

/-- C1 counterexample: take the default scheme but give the primary color a
trailing newline.  The value does not match `#[0-9A-Fa-f]{6}` exactly (it has
a character after the six hex digits), yet `validate_hex_colors` reports PASS
for every field, including `primary`. -/
theorem hex_trailing_newline_cex :
    specStrictHexMatch newlineScheme.primary = false ∧
    newlineScheme.validate_hex_colors.map ValidationResult.status =
      [ValidationStatus.PASS, ValidationStatus.PASS, ValidationStatus.PASS,
       ValidationStatus.PASS, ValidationStatus.PASS] := by
  decide

/-- C1 (amended): for every ColorScheme, `validate_hex_colors` returns, per
field, a PASS check iff the field value matches the compiled pattern and a
FAIL check otherwise; and matching the compiled pattern means matching
`#[0-9A-Fa-f]{6}` exactly, or being such a match followed by one trailing
newline (Python's end-anchor also matches before a final newline). -/
theorem validate_hex_colors_pass_iff (c : ColorScheme) :
    List.Forall₂
      (fun (f : String × String) (r : ValidationResult) =>
        (r.status = ValidationStatus.PASS ↔ hexPatternMatch f.2 = true) ∧
        (r.status = ValidationStatus.FAIL ↔ hexPatternMatch f.2 = false))
      c.fields c.validate_hex_colors ∧
    ∀ s : String, hexPatternMatch s = true ↔
      (specStrictHexMatch s = true ∨
        ∃ t : String, s = t ++ "\n" ∧ specStrictHexMatch t = true) := by
  constructor
  · exact forall₂_map_self (fun p : String × String => colorCheckResult p.1 p.2)
      (fun f r =>
        (r.status = ValidationStatus.PASS ↔ hexPatternMatch f.2 = true) ∧
        (r.status = ValidationStatus.FAIL ↔ hexPatternMatch f.2 = false))
      (fun p => colorCheckResult_status p.1 p.2) c.fields
  · exact hexPatternMatch_iff

/-- C1 witness: the amended characterisation evaluated on the newline-carrying
color value. -/
theorem validate_hex_colors_pass_iff_w :
    hexPatternMatch newlineScheme.primary = true ∧
    specStrictHexMatch newlineScheme.primary = false := by
  constructor
  · exact ((validate_hex_colors_pass_iff {}).2 newlineScheme.primary).mpr
      (Or.inr ⟨"#0b2a4a", by decide, by decide⟩)
  · decide

/-- C10: for every ColorScheme, `validate_hex_colors` returns exactly five
results, one per field in declaration order (primary, secondary, text,
background, accent), and each result's message contains the field name and the
field's color value. -/
theorem validate_hex_colors_shape (c : ColorScheme) :
    c.fields.map Prod.fst =
      ["primary", "secondary", "text", "background", "accent"] ∧
    c.validate_hex_colors.length = 5 ∧
    List.Forall₂
      (fun (f : String × String) (r : ValidationResult) =>
        Contains r.message f.1 ∧ Contains r.message f.2)
      c.fields c.validate_hex_colors := by
  refine ⟨rfl, rfl, ?_⟩
  exact forall₂_map_self (fun p : String × String => colorCheckResult p.1 p.2)
    (fun f r => Contains r.message f.1 ∧ Contains r.message f.2)
    (fun p => colorCheckResult_message p.1 p.2) c.fields

/-- C2 counterexample: with zero counted checks the summary's pass rate is the
literal string `"N/A"`, not the words `"not applicable"`. -/
theorem pass_rate_na_literal_cex :
    (mkSummary emptyCats).total_checks = 0 ∧
    (mkSummary emptyCats).pass_rate = "N/A" ∧
    (mkSummary emptyCats).pass_rate ≠ "not applicable" := by
  decide

/-- C2 (amended): with total = 0 the summarize step takes the guarded branch,
performing no division, and reports the pass rate as "N/A"; with total > 0 the
pass rate is the one-decimal percentage of passed/total: the printed tenths
value differs from the exact rational 1000*passed/total by at most one half. -/
theorem pass_rate_behaviour (p t : Nat) :
    (t = 0 → pass_rate p t = "N/A") ∧
    (0 < t →
      pass_rate p t = formatOneDecimalPercent p t ∧
      2 * (p * 1000) ≤ 2 * (t * roundTenthsHalfEven (p * 1000) t) + t ∧
      2 * (t * roundTenthsHalfEven (p * 1000) t) ≤ 2 * (p * 1000) + t) := by
  constructor
  · intro ht; subst ht; rfl
  · intro ht
    refine ⟨by unfold pass_rate; rw [if_pos ht], ?_, ?_⟩ <;>
    · have hdm := Nat.div_add_mod (p * 1000) t
      have hmlt := Nat.mod_lt (p * 1000) ht
      unfold roundTenthsHalfEven
      split
      · omega
      · split
        · rw [Nat.mul_add, Nat.mul_one]
          omega
        · split
          · omega
          · rw [Nat.mul_add, Nat.mul_one]
            omega

/-- C2 witness: pass rate at (0, 0) and at the shipped counts (20, 20). -/
theorem pass_rate_behaviour_w :
    pass_rate 0 0 = "N/A" ∧ pass_rate 20 20 = "100.0%" := by
  constructor
  · exact (pass_rate_behaviour 0 0).1 rfl
  · have h := ((pass_rate_behaviour 20 20).2 (by decide)).1
    rw [h]
    decide

/-- C3: for every iterated category list, the summary's overall status is PASS
iff passed equals total, and any shortfall (passed < total) yields WARNING. -/
theorem summarize_overall_status (cats : List (String × CatVal)) :
    ((mkSummary cats).overall_status = ValidationStatus.PASS ↔
      (mkSummary cats).passed_checks = (mkSummary cats).total_checks) ∧
    ((mkSummary cats).passed_checks < (mkSummary cats).total_checks →
      (mkSummary cats).overall_status = ValidationStatus.WARNING) := by
  unfold mkSummary overallStatusOf
  dsimp only
  constructor
  · constructor
    · intro h
      by_contra hne
      rw [if_neg hne] at h
      exact absurd h (by decide)
    · intro he
      rw [if_pos he]
  · intro hlt
    rw [if_neg (Nat.ne_of_lt hlt)]

/-- C3 witness: a one-check input whose only check fails gets WARNING. -/
theorem summarize_overall_status_w :
    (mkSummary warnExampleCats).overall_status = ValidationStatus.WARNING :=
  (summarize_overall_status warnExampleCats).2 (by decide)

/-- C4: on the fixed literal data shipped in the repository (the
default-constructed implementation), the comprehensive validation's summary
has passed equal to total (20 of 20) and overall status PASS. -/
theorem shipped_data_all_checks_pass :
    (run_comprehensive_validation mkImplementation).summary.passed_checks =
      (run_comprehensive_validation mkImplementation).summary.total_checks ∧
    (run_comprehensive_validation mkImplementation).summary.total_checks = 20 ∧
    (run_comprehensive_validation mkImplementation).summary.overall_status =
      ValidationStatus.PASS := by
  decide

/-- C9: the summary loop counts exactly the categories that are dicts whose
values are all ValidationResults — architecture, accessibility and code
quality, 7 + 8 + 5 = 20 entries — and a Python list (such as the five
color-scheme checks or the implemented-features list) is never counted. -/
theorem summary_counts_only_vr_dicts :
    ((validationCategories mkImplementation).filter
        (fun p => isVRDict p.2)).map Prod.fst =
      ["architecture_compliance", "accessibility_compliance", "code_quality"] ∧
    (summaryCounts (validationCategories mkImplementation)).1 =
      (validate_architecture_compliance mkImplementation).length +
        validate_accessibility_compliance.length + validate_code_quality.length ∧
    (summaryCounts (validationCategories mkImplementation)).1 = 20 ∧
    (summaryCounts (validationCategories mkImplementation)).2 = 20 ∧
    isVRDict (CatVal.pylist
      ((mkImplementation.color_scheme.validate_hex_colors).map PyEntry.vr)) =
      false ∧
    isVRDict (CatVal.pylist get_implemented_features) = false := by
  decide

/-- C6: the pipeline is a pure function of the constructed implementation
value: identically constructed instances yield byte-identical report
strings. -/
theorem pipeline_deterministic (i j : Implementation) (h : i = j) :
    generate_validation_report i = generate_validation_report j := by
  rw [h]

/-- C6 witness: two runs on the shipped construction agree. -/
theorem pipeline_deterministic_w :
    generate_validation_report mkImplementation =
      generate_validation_report mkImplementation :=
  pipeline_deterministic mkImplementation mkImplementation rfl

/-- C7: a failure raised inside the body of architecture or accessibility
validation is converted by the operation's top-level handler into a returned
single fail-status check instead of an exception; both operations are that
handler applied to their (non-raising) bodies, and code-quality validation is
plain returned data with no raising body at all. -/
theorem validation_failures_become_data :
    (∀ e : String,
      (runArchCompliance (Except.error e)).map (fun p => (p.1, p.2.status)) =
        [("validation_error", ValidationStatus.FAIL)]) ∧
    (∀ e : String,
      (runAccessCompliance (Except.error e)).map (fun p => (p.1, p.2.status)) =
        [("accessibility_error", ValidationStatus.FAIL)]) ∧
    (∀ impl : Implementation,
      validate_architecture_compliance impl =
        runArchCompliance (Except.ok (archValidations impl))) ∧
    validate_accessibility_compliance =
      runAccessCompliance (Except.ok accessibilityValidations) ∧
    validate_code_quality.length = 5 :=
  ⟨fun _ => rfl, fun _ => rfl, fun _ => rfl, rfl, rfl⟩

/-- C8: `main` writes the report (plus the newline appended by `print`) to
standard output and returns 0 when report generation succeeds, and writes the
error message and returns 1 when an unexpected error occurs; on the shipped
data the success path is taken. -/
theorem main_success_and_failure :
    (∀ r : String, mainRun (Except.ok r) = (r ++ "\n", 0)) ∧
    (∀ e : String,
      mainRun (Except.error e) = ("Validation failed: " ++ e ++ "\n", 1)) ∧
    mainResult = (generate_validation_report mkImplementation ++ "\n", 0) :=
  ⟨fun _ => rfl, fun _ => rfl, rfl⟩

set_option maxRecDepth 20000 in
/-- C5 counterexample: the validation run produces a group of five
color-scheme checks, but the report contains no line for them — the first
color check's message never occurs in the report string. -/
theorem report_omits_color_checks_cex :
    ∃ r : ValidationResult,
      r ∈ (run_comprehensive_validation mkImplementation).color_scheme_validation ∧
      r.message = validPrimaryMsg ∧
      ¬ Contains (generate_validation_report mkImplementation) r.message := by
  refine ⟨{ status := ValidationStatus.PASS, message := validPrimaryMsg },
    by decide, rfl, ?_⟩
  rw [Contains_iff_occursB]
  decide

set_option maxRecDepth 20000 in
/-- C5 (amended): the report contains the project name and version verbatim
and one line per check in each of the three rendered groups (architecture
compliance, accessibility compliance, code quality); the color-scheme checks
are not rendered. -/
theorem report_contains_required_strings :
    Contains (generate_validation_report mkImplementation) "MayDay Real Estate" ∧
    Contains (generate_validation_report mkImplementation) "1.1.0" ∧
    (∀ p,
      p ∈ (run_comprehensive_validation mkImplementation).architecture_compliance →
      Contains (generate_validation_report mkImplementation)
        (renderCheckLine p.1 p.2)) ∧
    (∀ p,
      p ∈ (run_comprehensive_validation mkImplementation).accessibility_compliance →
      Contains (generate_validation_report mkImplementation)
        (renderCheckLine p.1 p.2)) ∧
    (∀ p,
      p ∈ (run_comprehensive_validation mkImplementation).code_quality →
      Contains (generate_validation_report mkImplementation)
        (renderCheckLine p.1 p.2)) := by
  refine ⟨?_, ?_, ?_, ?_, ?_⟩
  · rw [Contains_iff_occursB]; decide
  · rw [Contains_iff_occursB]; decide
  · intro p hp
    have hc : Contains
        (renderChecks
          (run_comprehensive_validation mkImplementation).architecture_compliance)
        (renderCheckLine p.1 p.2) := by
      rw [renderChecks_eq]
      exact contains_concatMap _ p _ hp
    show Contains (reportBody (run_comprehensive_validation mkImplementation)) _
    unfold reportBody
    exact contains_appendR _ _ _ (contains_appendR _ _ _ (contains_appendR _ _ _
      (contains_appendR _ _ _ (contains_appendR _ _ _
        (contains_appendL _ _ _ hc)))))
  · intro p hp
    have hc : Contains
        (renderChecks
          (run_comprehensive_validation mkImplementation).accessibility_compliance)
        (renderCheckLine p.1 p.2) := by
      rw [renderChecks_eq]
      exact contains_concatMap _ p _ hp
    show Contains (reportBody (run_comprehensive_validation mkImplementation)) _
    unfold reportBody
    exact contains_appendR _ _ _ (contains_appendR _ _ _ (contains_appendR _ _ _
      (contains_appendL _ _ _ hc)))
  · intro p hp
    have hc : Contains
        (renderChecks
          (run_comprehensive_validation mkImplementation).code_quality)
        (renderCheckLine p.1 p.2) := by
      rw [renderChecks_eq]
      exact contains_concatMap _ p _ hp
    show Contains (reportBody (run_comprehensive_validation mkImplementation)) _
    unfold reportBody
    exact contains_appendR _ _ _ (contains_appendL _ _ _ hc)

/-- C5 witness: the line of the first architecture check occurs in the
report. -/
theorem report_contains_required_strings_w :
    Contains (generate_validation_report mkImplementation)
      (renderCheckLine ("single_page_design")
        { status := ValidationStatus.PASS,
          message := "Single-page architecture implemented",
          details := some "All content contained in index.html with anchor navigation" }) :=
  report_contains_required_strings.2.2.1
    (("single_page_design"),
      { status := ValidationStatus.PASS,
        message := "Single-page architecture implemented",
        details := some "All content contained in index.html with anchor navigation" })
    (by decide)
